import Mathlib

/-!
Verification of the cura therapeutic inference pipeline.

Shallow embedding of `scripts/therapeutic_inference_service.py` and
`backend/services/openai_service.py`.  Python floats are modelled as
rationals; `np.mean` of an empty list (which is `NaN`) is modelled as
`none`; each fallible oracle call is modelled by an `Except` value that
the adapter consumes.
-/

namespace Cura

/-- The six keys of `intervention_categories`, as a closed enumeration. -/
inductive Category where
  | validation_empathy
  | cognitive_restructuring
  | behavioral_activation
  | mindfulness_grounding
  | problem_solving
  | psychoeducation
deriving DecidableEq, Repr

/-- `list(self.intervention_categories.keys())`, in declaration order. -/
def intervention_keys : List Category :=
  [.validation_empathy, .cognitive_restructuring, .behavioral_activation,
   .mindfulness_grounding, .problem_solving, .psychoeducation]

/-- Position of a category in the declaration order of
`intervention_categories`. -/
def declIdx : Category → ℕ
  | .validation_empathy => 0
  | .cognitive_restructuring => 1
  | .behavioral_activation => 2
  | .mindfulness_grounding => 3
  | .problem_solving => 4
  | .psychoeducation => 5

/-- The `label` field of each `intervention_categories` entry. -/
def labelOf : Category → String
  | .validation_empathy => "Validation and Empathy"
  | .cognitive_restructuring => "Cognitive Restructuring"
  | .behavioral_activation => "Behavioral Activation"
  | .mindfulness_grounding => "Mindfulness and Grounding"
  | .problem_solving => "Problem Solving"
  | .psychoeducation => "Psychoeducation"

/-- `confidence_thresholds['primary']`. -/
def primary_threshold : ℚ := 0.6

/-- `confidence_thresholds['prediction']`, the per-category table. -/
def prediction_threshold : Category → ℚ
  | .validation_empathy => 0.30
  | .behavioral_activation => 0.30
  | .mindfulness_grounding => 0.35
  | .problem_solving => 0.40
  | .psychoeducation => 0.40
  | .cognitive_restructuring => 0.45

/-- The `InterventionPrediction` dataclass. -/
structure InterventionPrediction where
  intervention : Category
  label : String
  confidence : ℚ
  is_predicted : Bool
  is_primary : Bool
deriving DecidableEq, Repr

/-- One iteration of the result loop in `classify_interventions`:
`is_predicted = score >= prediction_threshold`, `is_primary = score >= 0.6`. -/
def mkPrediction (c : Category) (score : ℚ) : InterventionPrediction :=
  { intervention := c
    label := labelOf c
    confidence := score
    is_predicted := decide (prediction_threshold c ≤ score)
    is_primary := decide (primary_threshold ≤ score) }

/-- The loop `for i, (label, score) in enumerate(zip(result['labels'],
result['scores']))` with `intervention_key = intervention_keys[i]`: the label
component of each pair is ignored, only the position matters.  `none` models
the `IndexError` raised when the zipped oracle result is longer than the key
list (the surrounding `except` then turns it into `[]`). -/
def buildPredictions :
    List Category → List (String × ℚ) → Option (List InterventionPrediction)
  | _, [] => some []
  | [], _ :: _ => none
  | c :: ks, (_, s) :: ps =>
    (buildPredictions ks ps).map (fun rest => mkPrediction c s :: rest)

/-- Insert into a descending-sorted list, placing the new element before the
first element of smaller-or-equal confidence. -/
def insertDesc (x : InterventionPrediction) :
    List InterventionPrediction → List InterventionPrediction
  | [] => [x]
  | y :: ys =>
    if y.confidence ≤ x.confidence then x :: y :: ys else y :: insertDesc x ys

/-- `predictions.sort(key=lambda x: x.confidence, reverse=True)`.  Python's
`list.sort` is stable and `reverse=True` keeps equal keys in their original
order, which this insertion sort reproduces: an element is inserted before
exactly the strictly-smaller elements that follow it. -/
def sortDesc : List InterventionPrediction → List InterventionPrediction
  | [] => []
  | x :: xs => insertDesc x (sortDesc xs)

/-- `classify_interventions`, as a function of the zero-shot oracle's outcome
(`result['labels']` and `result['scores']`).  Any exception inside the body,
including an oracle failure, is caught and `[]` is returned. -/
def classify_interventions
    (oracle : Except String (List String × List ℚ)) :
    List InterventionPrediction :=
  match oracle with
  | .error _ => []
  | .ok (labels, scores) =>
    match buildPredictions intervention_keys (labels.zip scores) with
    | none => []
    | some preds => sortDesc preds

/-- The `SemanticSearchResult` dataclass. -/
structure SemanticSearchResult where
  conversation_id : String
  patient_question : String
  counselor_response : String
  similarity_score : ℚ
deriving DecidableEq, Repr

/-- `semantic_search`, as a function of the retrieval oracle's outcome: on a
transport failure the `except` returns `[]`; with no data the accumulated
`results` list is returned, still `[]`. -/
def semantic_search
    (oracle : Except String (List SemanticSearchResult)) :
    List SemanticSearchResult :=
  match oracle with
  | .error _ => []
  | .ok rows => rows

/-- The `if`/`elif` chain of `_generate_response_patterns`.  The final Python
branch tests `== 'psychoeducation'`; over the closed six-key enumeration that
test is exhaustive, so it appears here as the final case. -/
def pattern_sentence (c : Category) : String :=
  if c = .validation_empathy then
    "Acknowledge and validate the person's feelings with empathetic language"
  else if c = .cognitive_restructuring then
    "Help explore and challenge any unhelpful thought patterns"
  else if c = .behavioral_activation then
    "Encourage specific actions or behavioral changes"
  else if c = .mindfulness_grounding then
    "Suggest mindfulness or grounding techniques for present-moment awareness"
  else if c = .problem_solving then
    "Guide through structured problem-solving approaches"
  else
    "Provide relevant information or normalize the experience"

/-- The `for intervention in primary_interventions` appending loop of
`_generate_response_patterns`. -/
def pattern_loop : List InterventionPrediction → List String
  | [] => []
  | p :: rest => pattern_sentence p.intervention :: pattern_loop rest

/-- `_generate_response_patterns`: one pattern quoting the top search result
(truncated to its first 100 characters) when search results exist, followed by
one fixed sentence per primary intervention. -/
def generate_response_patterns
    (search_results : List SemanticSearchResult)
    (primary_interventions : List InterventionPrediction) : List String :=
  (match search_results with
   | [] => []
   | r :: _ =>
     ["Similar situations have been addressed with responses like: '"
        ++ r.counselor_response.take 100 ++ "...'"]) ++
  pattern_loop primary_interventions

/-- The `confidence_summary` dict: either the four-statistic dict built by
`synthesize_therapeutic_context` (where `mean_confidence = none` models
`np.mean([]) = NaN`) or the `{'error': str(e)}` dict of the degraded path in
`get_therapeutic_response`. -/
inductive ConfidenceSummary where
  | stats (mean_confidence : Option ℚ) (max_confidence : ℚ)
      (primary_count : ℕ) (predicted_count : ℕ)
  | err (msg : String)
deriving DecidableEq, Repr

/-- `np.mean([p.confidence for p in intervention_predictions])`; `none` is
the `NaN` produced on an empty list. -/
def mean_confidence (preds : List InterventionPrediction) : Option ℚ :=
  if preds.isEmpty then none
  else some ((preds.map (fun p => p.confidence)).sum / preds.length)

/-- `max(p.confidence for p in intervention_predictions) if
intervention_predictions else 0.0`. -/
def max_confidence (preds : List InterventionPrediction) : ℚ :=
  match preds with
  | [] => 0
  | p :: rest => rest.foldl (fun m q => max m q.confidence) p.confidence

/-- The `TherapeuticContext` dataclass (`processing_time_ms`, a wall-clock
measurement, is not modelled). -/
structure TherapeuticContext where
  query : String
  similar_examples : List SemanticSearchResult
  intervention_predictions : List InterventionPrediction
  primary_interventions : List InterventionPrediction
  recommended_response_patterns : List String
  confidence_summary : ConfidenceSummary
deriving DecidableEq, Repr

/-- The in-place mutation `validation_empathy.is_primary = True`: the mutated
object is the first (in the pipeline, unique) element of
`intervention_predictions` with the `validation_empathy` key, so the stored
`intervention_predictions` list sees the update as well. -/
def mark_first_validation_empathy :
    List InterventionPrediction → List InterventionPrediction
  | [] => []
  | p :: rest =>
    if p.intervention = .validation_empathy then
      { p with is_primary := true } :: rest
    else p :: mark_first_validation_empathy rest

/-- `synthesize_therapeutic_context`.  `primary_interventions` is filtered
first; then `next(...)` finds the first `validation_empathy` entry and, when
it is not already primary, mutates it to primary and appends it. -/
def synthesize_therapeutic_context (query : String)
    (search_results : List SemanticSearchResult)
    (intervention_predictions : List InterventionPrediction) :
    TherapeuticContext :=
  let primary0 := intervention_predictions.filter (fun p => p.is_primary)
  let step :=
    match intervention_predictions.find?
        (fun p => p.intervention == Category.validation_empathy) with
    | none => (intervention_predictions, primary0)
    | some v =>
      if v.is_primary then (intervention_predictions, primary0)
      else (mark_first_validation_empathy intervention_predictions,
            primary0 ++ [{ v with is_primary := true }])
  { query := query
    similar_examples := search_results
    intervention_predictions := step.1
    primary_interventions := step.2
    recommended_response_patterns :=
      generate_response_patterns search_results step.2
    confidence_summary :=
      ConfidenceSummary.stats (mean_confidence step.1) (max_confidence step.1)
        step.2.length (step.1.countP (fun p => p.is_predicted)) }

/-- `get_therapeutic_response`: both branch functions catch their own oracle
failures and return `[]`, so the outer `except` (which would produce the
`{'error': ...}` summary) is not reached on an oracle failure; the body,
`asyncio.gather` followed by synthesis, is the composition below. -/
def get_therapeutic_response (query : String)
    (search_oracle : Except String (List SemanticSearchResult))
    (classification_oracle : Except String (List String × List ℚ)) :
    TherapeuticContext :=
  synthesize_therapeutic_context query (semantic_search search_oracle)
    (classify_interventions classification_oracle)

/-- The degraded context built by the outer `except` branch of
`get_therapeutic_response`; with the oracle outcomes modelled explicitly the
body never raises, so this value is unreachable from
`get_therapeutic_response` above. -/
def error_context (query msg : String) : TherapeuticContext :=
  { query := query
    similar_examples := []
    intervention_predictions := []
    primary_interventions := []
    recommended_response_patterns := ["Error processing query: " ++ msg]
    confidence_summary := ConfidenceSummary.err msg }

/-!
Embedding of `backend/services/openai_service.py`.
-/

/-- Python's `round` on a rational: round half to even. -/
def pyRound (x : ℚ) : ℤ :=
  let f := ⌊x⌋
  let r := x - f
  if r < 1/2 then f
  else if 1/2 < r then f + 1
  else if f % 2 = 0 then f else f + 1

/-- `round(x, 3)`. -/
def round3 (x : ℚ) : ℚ := (pyRound (x * 1000) : ℚ) / 1000

/-- `_calculate_advice_confidence`: 0.3 with no primary interventions,
otherwise the mean of their confidences, boosted by 1.1 and capped at 0.95
when there are at least two, rounded to three decimals. -/
def calculate_advice_confidence
    (primary_interventions : List InterventionPrediction) : ℚ :=
  if primary_interventions.isEmpty then 0.3
  else
    let avg := (primary_interventions.map (fun p => p.confidence)).sum /
      primary_interventions.length
    let boosted :=
      if 2 ≤ primary_interventions.length then min 0.95 (avg * 1.1) else avg
    round3 boosted

/-- Character-list version of Python's `s.startswith(t)`. -/
def isPrefixCL : List Char → List Char → Bool
  | [], _ => true
  | _ :: _, [] => false
  | a :: as, b :: bs => a == b && isPrefixCL as bs

/-- Character-list version of Python's `needle in hay`. -/
def containsSub (needle : List Char) : List Char → Bool
  | [] => needle.isEmpty
  | c :: rest => isPrefixCL needle (c :: rest) || containsSub needle rest

/-- Python's `kw in text` on strings. -/
def strContains (text kw : String) : Bool :=
  containsSub kw.toList text.toList

/-- `technique_keywords`, each paired with its Python
`technique.replace("_", " ").title()` form (the keywords are literals, so the
formatted forms are precomputed literals). -/
def technique_keywords : List (String × String) :=
  [("cognitive behavioral therapy", "Cognitive Behavioral Therapy"),
   ("cbt", "Cbt"),
   ("cognitive restructuring", "Cognitive Restructuring"),
   ("mindfulness", "Mindfulness"),
   ("meditation", "Meditation"),
   ("breathing exercises", "Breathing Exercises"),
   ("grounding", "Grounding"),
   ("behavioral activation", "Behavioral Activation"),
   ("exposure therapy", "Exposure Therapy"),
   ("systematic desensitization", "Systematic Desensitization"),
   ("validation", "Validation"),
   ("empathy", "Empathy"),
   ("active listening", "Active Listening"),
   ("reflective listening", "Reflective Listening"),
   ("problem-solving", "Problem-Solving"),
   ("goal-setting", "Goal-Setting"),
   ("coping strategies", "Coping Strategies"),
   ("stress management", "Stress Management"),
   ("relaxation techniques", "Relaxation Techniques"),
   ("progressive muscle relaxation", "Progressive Muscle Relaxation"),
   ("guided imagery", "Guided Imagery")]

/-- The default technique list, shared by `_extract_therapeutic_techniques`
(when no keyword matches) and `_generate_fallback_advice`. -/
def fallback_techniques : List String :=
  ["Active Listening", "Validation", "Empathetic Responding"]

/-- `_extract_therapeutic_techniques`: keyword scan over the lowercased text,
first occurrence order, deduplicated, defaulted, first three kept. -/
def extract_therapeutic_techniques (text : String) : List String :=
  let lower := text.toLower
  let found := technique_keywords.foldl
    (fun acc kw =>
      if strContains lower kw.1 && !(acc.contains kw.2) then acc ++ [kw.2]
      else acc) []
  let ts := if found.isEmpty then fallback_techniques else found
  ts.take 3

/-- `consideration_indicators` of `_extract_considerations`. -/
def consideration_indicators : List String :=
  ["consider", "important to note", "keep in mind", "be aware",
   "safety", "risk", "crisis", "emergency", "referral", "professional help"]

/-- `action_indicators` of `_extract_next_steps`. -/
def action_indicators : List String :=
  ["next step", "follow up", "continue", "begin", "start",
   "practice", "implement", "try", "explore", "develop"]

/-- The default considerations, shared by `_extract_considerations` and
`_generate_fallback_advice`. -/
def default_considerations : List String :=
  ["Monitor patient's emotional state and safety",
   "Maintain therapeutic boundaries and professional ethics",
   "Consider referral to specialized mental health services if needed"]

/-- The default next steps, shared by `_extract_next_steps` and
`_generate_fallback_advice`. -/
def default_next_steps : List String :=
  ["Validate patient's feelings and experiences",
   "Explore coping strategies and resources",
   "Schedule follow-up to monitor progress"]

/-- The sentence scan common to `_extract_considerations` and
`_extract_next_steps`: split on `'.'`, keep stripped sentences longer than 20
characters containing an indicator word, deduplicated, defaulted, first three
kept. -/
def extract_sentences (text : String)
    (indicators defaults : List String) : List String :=
  let sentences := text.splitOn "."
  let picked := sentences.foldl
    (fun acc s =>
      if indicators.any (fun ind => strContains s.toLower ind)
          && 20 < s.trim.length && !(acc.contains s.trim)
      then acc ++ [s.trim] else acc) []
  (if picked.isEmpty then defaults else picked).take 3

/-- `_extract_considerations`. -/
def extract_considerations (text : String) : List String :=
  extract_sentences text consideration_indicators default_considerations

/-- `_extract_next_steps`. -/
def extract_next_steps (text : String) : List String :=
  extract_sentences text action_indicators default_next_steps

/-- Three-digit zero padding for the fractional part of `format3`. -/
def pad3 (n : ℕ) : String :=
  if n < 10 then "00" ++ toString n
  else if n < 100 then "0" ++ toString n
  else toString n

/-- Python's `f'{c:.3f}'` on a rational. -/
def format3 (q : ℚ) : String :=
  let m := pyRound (q * 1000)
  if m < 0 then
    "-" ++ toString ((-m).toNat / 1000) ++ "." ++ pad3 ((-m).toNat % 1000)
  else toString (m.toNat / 1000) ++ "." ++ pad3 (m.toNat % 1000)

/-- `_generate_reasoning`: a fixed sentence with no primary interventions,
otherwise a templated sentence naming the primary labels, their confidences
and the technique list it is given. -/
def generate_reasoning (primary_interventions : List InterventionPrediction)
    (techniques : List String) : String :=
  if primary_interventions.isEmpty then
    "Based on general therapeutic best practices and evidence-based approaches."
  else
    "Based on "
      ++ String.intercalate ", "
        (primary_interventions.map (fun p => p.label))
      ++ " interventions (confidence scores: "
      ++ String.intercalate ", "
        (primary_interventions.map (fun p => format3 p.confidence))
      ++ "), recommended techniques include "
      ++ String.intercalate ", " techniques
      ++ ". This approach aligns with evidence-based therapeutic practices."

/-- The `TherapeuticAdvice` dataclass. -/
structure TherapeuticAdvice where
  advice_text : String
  therapeutic_techniques : List String
  considerations : List String
  next_steps : List String
  confidence_score : ℚ
  reasoning : String
deriving DecidableEq, Repr

/-- `_parse_therapeutic_response`: the successful-oracle path, applied to the
oracle's returned text. -/
def parse_therapeutic_response (advice_text : String)
    (primary_interventions : List InterventionPrediction) :
    TherapeuticAdvice :=
  let techniques := extract_therapeutic_techniques advice_text
  { advice_text := advice_text
    therapeutic_techniques := techniques
    considerations := extract_considerations advice_text
    next_steps := extract_next_steps advice_text
    confidence_score := calculate_advice_confidence primary_interventions
    reasoning := generate_reasoning primary_interventions techniques }

/-- `_generate_fallback_advice`: the path taken when the advice oracle is
unavailable or its call fails. -/
def generate_fallback_advice (patient_query : String)
    (primary_interventions : List InterventionPrediction) :
    TherapeuticAdvice :=
  let advice_text :=
    match primary_interventions with
    | [] =>
      "Focus on building therapeutic alliance through active listening and validation. Create a safe space for the patient to explore their concerns."
    | top :: _ =>
      "Based on the analysis, " ++ top.label
        ++ " appears to be the most appropriate intervention for this situation. Focus on validating the patient's feelings and providing a supportive therapeutic environment."
  { advice_text := advice_text
    therapeutic_techniques := fallback_techniques
    considerations := default_considerations
    next_steps := default_next_steps
    confidence_score := calculate_advice_confidence primary_interventions
    reasoning := generate_reasoning primary_interventions fallback_techniques }

/-!
Derived notions used in the statements.
-/

/-- The ordering law of `all_scores`: strictly larger confidence first, and
among equal confidences the category that is declared first. -/
def rankedBefore (p q : InterventionPrediction) : Prop :=
  q.confidence < p.confidence ∨
    (p.confidence = q.confidence ∧
      declIdx p.intervention < declIdx q.intervention)

/-- The pipeline on one classifier oracle result: classification followed by
context synthesis. -/
def pipeline_context (query : String)
    (search_results : List SemanticSearchResult)
    (labels : List String) (scores : List ℚ) : TherapeuticContext :=
  synthesize_therapeutic_context query search_results
    (classify_interventions (Except.ok (labels, scores)))

/-- `primary_count` of a confidence summary (0 for the error summary). -/
def primary_count_of : ConfidenceSummary → ℕ
  | .stats _ _ pc _ => pc
  | .err _ => 0

/-- `predicted_count` of a confidence summary (0 for the error summary). -/
def predicted_count_of : ConfidenceSummary → ℕ
  | .stats _ _ _ dc => dc
  | .err _ => 0

/-- The score the classifier adapter attributes to a category is the raw
score at that category's declaration position. -/
def declaration_score (s0 s1 s2 s3 s4 s5 : ℚ) : Category → ℚ
  | .validation_empathy => s0
  | .cognitive_restructuring => s1
  | .behavioral_activation => s2
  | .mindfulness_grounding => s3
  | .problem_solving => s4
  | .psychoeducation => s5

/-- The unsorted prediction list built by `classify_interventions` from a
full six-score oracle result, in declaration order. -/
def basePreds (s0 s1 s2 s3 s4 s5 : ℚ) : List InterventionPrediction :=
  [mkPrediction .validation_empathy s0,
   mkPrediction .cognitive_restructuring s1,
   mkPrediction .behavioral_activation s2,
   mkPrediction .mindfulness_grounding s3,
   mkPrediction .problem_solving s4,
   mkPrediction .psychoeducation s5]

/-!
Helper lemmas.
-/

theorem mem_insertDesc (x y : InterventionPrediction) :
    ∀ l : List InterventionPrediction,
      (y ∈ insertDesc x l ↔ y = x ∨ y ∈ l) := by
  intro l
  induction l with
  | nil => simp [insertDesc]
  | cons z zs ih =>
    simp only [insertDesc]
    split
    · simp [List.mem_cons]
    · simp only [List.mem_cons, ih]
      tauto

theorem countP_insertDesc (p : InterventionPrediction → Bool)
    (x : InterventionPrediction) :
    ∀ l : List InterventionPrediction,
      (insertDesc x l).countP p = l.countP p + (if p x then 1 else 0) := by
  intro l
  induction l with
  | nil => simp [insertDesc, List.countP_cons]
  | cons z zs ih =>
    simp only [insertDesc]
    split <;> simp [List.countP_cons, ih] <;> omega

theorem mem_sortDesc (y : InterventionPrediction) :
    ∀ l : List InterventionPrediction, (y ∈ sortDesc l ↔ y ∈ l) := by
  intro l
  induction l with
  | nil => simp [sortDesc]
  | cons x xs ih =>
    simp only [sortDesc, mem_insertDesc, ih, List.mem_cons]

theorem countP_sortDesc (p : InterventionPrediction → Bool) :
    ∀ l : List InterventionPrediction,
      (sortDesc l).countP p = l.countP p := by
  intro l
  induction l with
  | nil => rfl
  | cons x xs ih =>
    simp [sortDesc, countP_insertDesc, ih, List.countP_cons]

theorem pairwise_insertDesc {x : InterventionPrediction} :
    ∀ {l : List InterventionPrediction}, l.Pairwise rankedBefore →
      (∀ y ∈ l, x.confidence = y.confidence →
        declIdx x.intervention < declIdx y.intervention) →
      (insertDesc x l).Pairwise rankedBefore := by
  intro l
  induction l with
  | nil =>
    intro _ _
    simp [insertDesc]
  | cons z zs ih =>
    intro hp hx
    have hp' := List.pairwise_cons.mp hp
    simp only [insertDesc]
    split
    case isTrue h =>
      refine List.pairwise_cons.mpr ⟨?_, hp⟩
      intro w hw
      have hwz : w.confidence ≤ z.confidence := by
        rcases List.mem_cons.mp hw with rfl | hw'
        · exact le_refl _
        · rcases hp'.1 w hw' with hlt | ⟨heq, _⟩
          · exact le_of_lt hlt
          · exact le_of_eq heq.symm
      rcases lt_or_eq_of_le (le_trans hwz h) with hlt | heq
      · exact Or.inl hlt
      · exact Or.inr ⟨heq.symm, hx w hw heq.symm⟩
    case isFalse h =>
      have hzx : x.confidence < z.confidence := lt_of_not_le h
      refine List.pairwise_cons.mpr ⟨?_, ?_⟩
      · intro w hw
        rcases (mem_insertDesc x w zs).mp hw with rfl | hw'
        · exact Or.inl hzx
        · exact hp'.1 w hw'
      · exact ih hp'.2 (fun y hy he => hx y (List.mem_cons_of_mem _ hy) he)

theorem pairwise_sortDesc :
    ∀ {l : List InterventionPrediction},
      l.Pairwise (fun a b => declIdx a.intervention < declIdx b.intervention) →
      (sortDesc l).Pairwise rankedBefore := by
  intro l
  induction l with
  | nil =>
    intro _
    simp [sortDesc]
  | cons x xs ih =>
    intro hp
    have hp' := List.pairwise_cons.mp hp
    exact pairwise_insertDesc (ih hp'.2)
      (fun y hy _ => hp'.1 y ((mem_sortDesc y xs).mp hy))

theorem buildPredictions_map_intervention :
    ∀ (ks : List Category) (ps : List (String × ℚ))
      (preds : List InterventionPrediction),
      buildPredictions ks ps = some preds →
      preds.map (fun p => p.intervention) = ks.take ps.length := by
  intro ks
  induction ks with
  | nil =>
    intro ps preds h
    cases ps with
    | nil =>
      simp only [buildPredictions, Option.some.injEq] at h
      subst h
      simp
    | cons p pt => simp [buildPredictions] at h
  | cons c kt ih =>
    intro ps preds h
    cases ps with
    | nil =>
      simp only [buildPredictions, Option.some.injEq] at h
      subst h
      simp
    | cons p pt =>
      obtain ⟨pl, s⟩ := p
      simp only [buildPredictions, Option.map_eq_some'] at h
      obtain ⟨rest, hrest, hpreds⟩ := h
      subst hpreds
      simp [mkPrediction, ih pt rest hrest]

theorem find?_eq_of_unique {α : Type} {p : α → Bool} {a : α} :
    ∀ {l : List α}, a ∈ l → p a = true →
      (∀ x ∈ l, p x = true → x = a) → l.find? p = some a := by
  intro l
  induction l with
  | nil =>
    intro h _ _
    cases h
  | cons b t ih =>
    intro hmem hpa huniq
    by_cases hb : p b = true
    · have hba : b = a := huniq b (List.mem_cons_self b t) hb
      subst hba
      simp [List.find?_cons_of_pos _ hb]
    · have hat : a ∈ t := by
        rcases List.mem_cons.mp hmem with rfl | h
        · exact absurd hpa hb
        · exact h
      rw [List.find?_cons_of_neg _ (by simpa using hb)]
      exact ih hat hpa (fun x hx hpx => huniq x (List.mem_cons_of_mem _ hx) hpx)

theorem mem_mark_first :
    ∀ (l : List InterventionPrediction) (p : InterventionPrediction),
      p ∈ mark_first_validation_empathy l →
      p ∈ l ∨ ∃ v ∈ l, v.intervention = Category.validation_empathy ∧
        p = { v with is_primary := true } := by
  intro l
  induction l with
  | nil =>
    intro p hp
    simp [mark_first_validation_empathy] at hp
  | cons a t ih =>
    intro p hp
    simp only [mark_first_validation_empathy] at hp
    split at hp
    case isTrue ha =>
      rcases List.mem_cons.mp hp with heq | hpt
      · exact Or.inr ⟨a, List.mem_cons_self _ _, ha, heq⟩
      · exact Or.inl (List.mem_cons_of_mem _ hpt)
    case isFalse ha =>
      rcases List.mem_cons.mp hp with heq | hpt
      · exact Or.inl (heq ▸ List.mem_cons_self _ _)
      · rcases ih p hpt with h | ⟨v, hv, hvi, hpv⟩
        · exact Or.inl (List.mem_cons_of_mem _ h)
        · exact Or.inr ⟨v, List.mem_cons_of_mem _ hv, hvi, hpv⟩

theorem countP_mark_first_predicted :
    ∀ l : List InterventionPrediction,
      (mark_first_validation_empathy l).countP (fun p => p.is_predicted) =
        l.countP (fun p => p.is_predicted) := by
  intro l
  induction l with
  | nil => rfl
  | cons a t ih =>
    simp only [mark_first_validation_empathy]
    split
    · simp [List.countP_cons]
    · simp [List.countP_cons, ih]

theorem countP_le_of_imp {p q : InterventionPrediction → Bool} :
    ∀ {l : List InterventionPrediction},
      (∀ x ∈ l, p x = true → q x = true) → l.countP p ≤ l.countP q := by
  intro l
  induction l with
  | nil =>
    intro _
    exact le_refl _
  | cons a t ih =>
    intro h
    have ht := ih (fun x hx => h x (List.mem_cons_of_mem _ hx))
    cases hpa : p a with
    | true =>
      have hqa := h a (List.mem_cons_self a t) hpa
      simp [List.countP_cons, hpa, hqa] <;> omega
    | false =>
      cases hqa : q a with
      | true => simp [List.countP_cons, hpa, hqa] <;> omega
      | false => simp [List.countP_cons, hpa, hqa] <;> omega

theorem countP_succ_le_of_gap {p q : InterventionPrediction → Bool}
    {x : InterventionPrediction} :
    ∀ {l : List InterventionPrediction}, x ∈ l → p x = false → q x = true →
      (∀ y ∈ l, p y = true → q y = true) →
      l.countP p + 1 ≤ l.countP q := by
  intro l
  induction l with
  | nil =>
    intro h _ _ _
    cases h
  | cons a t ih =>
    intro hmem hpx hqx himp
    have himpt : ∀ y ∈ t, p y = true → q y = true :=
      fun y hy => himp y (List.mem_cons_of_mem _ hy)
    rcases List.mem_cons.mp hmem with heq | hxt
    · have ht : List.countP p t ≤ List.countP q t := countP_le_of_imp himpt
      subst heq
      simp [List.countP_cons, hpx, hqx] <;> omega
    · have ht := ih hxt hpx hqx himpt
      cases hpa : p a with
      | true =>
        have hqa := himp a (List.mem_cons_self a t) hpa
        simp [List.countP_cons, hpa, hqa] <;> omega
      | false =>
        cases hqa : q a with
        | true => simp [List.countP_cons, hpa, hqa] <;> omega
        | false => simp [List.countP_cons, hpa, hqa] <;> omega

theorem pred_threshold_le_primary (c : Category) :
    prediction_threshold c ≤ primary_threshold := by
  cases c <;> norm_num [prediction_threshold, primary_threshold]

theorem classify_ok_eq (l0 l1 l2 l3 l4 l5 : String) (s0 s1 s2 s3 s4 s5 : ℚ) :
    classify_interventions
        (Except.ok ([l0, l1, l2, l3, l4, l5], [s0, s1, s2, s3, s4, s5]))
      = sortDesc (basePreds s0 s1 s2 s3 s4 s5) := rfl

theorem basePreds_shape {s0 s1 s2 s3 s4 s5 : ℚ}
    {p : InterventionPrediction} (hp : p ∈ basePreds s0 s1 s2 s3 s4 s5) :
    ∃ c s, p = mkPrediction c s := by
  simp only [basePreds, List.mem_cons, List.not_mem_nil, or_false] at hp
  rcases hp with rfl | rfl | rfl | rfl | rfl | rfl <;> exact ⟨_, _, rfl⟩

theorem basePreds_ve_unique {s0 s1 s2 s3 s4 s5 : ℚ}
    {p : InterventionPrediction} (hp : p ∈ basePreds s0 s1 s2 s3 s4 s5)
    (hc : p.intervention = Category.validation_empathy) :
    p = mkPrediction Category.validation_empathy s0 := by
  simp only [basePreds, List.mem_cons, List.not_mem_nil, or_false] at hp
  rcases hp with rfl | rfl | rfl | rfl | rfl | rfl
  · rfl
  all_goals simp [mkPrediction] at hc

theorem find?_sortDesc_base (s0 s1 s2 s3 s4 s5 : ℚ) :
    (sortDesc (basePreds s0 s1 s2 s3 s4 s5)).find?
        (fun p => p.intervention == Category.validation_empathy)
      = some (mkPrediction Category.validation_empathy s0) := by
  apply find?_eq_of_unique
  · exact (mem_sortDesc _ _).mpr (by simp [basePreds])
  · simp [mkPrediction]
  · intro x hx hpx
    have hx' := (mem_sortDesc x _).mp hx
    exact basePreds_ve_unique hx' (by simpa using hpx)

theorem mkPrediction_flag_consistent (c : Category) (s : ℚ) :
    ((mkPrediction c s).intervention == Category.validation_empathy
      || ((mkPrediction c s).is_primary
            == decide (primary_threshold ≤ (mkPrediction c s).confidence)))
      = true := by
  simp [mkPrediction]

/-!
The claim theorems.
-/

/-- C1: for every full six-category raw confidence vector processed by the
pipeline (classification followed by context synthesis), `validation_empathy`
appears in `primary_interventions` with `is_primary = true` even when its raw
confidence is below the 0.6 primary threshold, and no other category's
`is_primary` is forced above its raw-confidence-based value, in either the
stored prediction list or the primary list. -/
theorem validation_empathy_forced_primary (q : String)
    (search : List SemanticSearchResult)
    (l0 l1 l2 l3 l4 l5 : String) (s0 s1 s2 s3 s4 s5 : ℚ) :
    ((pipeline_context q search [l0, l1, l2, l3, l4, l5]
        [s0, s1, s2, s3, s4, s5]).primary_interventions.any
      (fun p => p.intervention == Category.validation_empathy && p.is_primary))
      = true
    ∧ ((pipeline_context q search [l0, l1, l2, l3, l4, l5]
        [s0, s1, s2, s3, s4, s5]).intervention_predictions.all
      (fun p => p.intervention == Category.validation_empathy
        || (p.is_primary == decide (primary_threshold ≤ p.confidence))))
      = true
    ∧ ((pipeline_context q search [l0, l1, l2, l3, l4, l5]
        [s0, s1, s2, s3, s4, s5]).primary_interventions.all
      (fun p => p.intervention == Category.validation_empathy
        || (p.is_primary == decide (primary_threshold ≤ p.confidence))))
      = true := by
  have hfind := find?_sortDesc_base s0 s1 s2 s3 s4 s5
  simp only [pipeline_context, classify_ok_eq, synthesize_therapeutic_context,
    hfind]
  by_cases h06 : primary_threshold ≤ s0
  · have hvp : (mkPrediction Category.validation_empathy s0).is_primary
        = true := by simp [mkPrediction, h06]
    simp only [hvp, if_true]
    refine ⟨?_, ?_, ?_⟩
    · rw [List.any_eq_true]
      refine ⟨mkPrediction Category.validation_empathy s0, ?_, ?_⟩
      · exact List.mem_filter.mpr
          ⟨(mem_sortDesc _ _).mpr (by simp [basePreds]), hvp⟩
      · simp [mkPrediction, h06]
    · rw [List.all_eq_true]
      intro p hp
      obtain ⟨c, s, rfl⟩ := basePreds_shape ((mem_sortDesc p _).mp hp)
      exact mkPrediction_flag_consistent c s
    · rw [List.all_eq_true]
      intro p hp
      have hp' := List.mem_filter.mp hp
      obtain ⟨c, s, rfl⟩ := basePreds_shape ((mem_sortDesc p _).mp hp'.1)
      exact mkPrediction_flag_consistent c s
  · have hvp : (mkPrediction Category.validation_empathy s0).is_primary
        = false := by simp [mkPrediction, h06]
    simp only [hvp, Bool.false_eq_true, if_false]
    refine ⟨?_, ?_, ?_⟩
    · rw [List.any_eq_true]
      refine ⟨{ mkPrediction Category.validation_empathy s0 with
          is_primary := true }, ?_, ?_⟩
      · exact List.mem_append_right _ (List.mem_singleton.mpr rfl)
      · simp [mkPrediction]
    · rw [List.all_eq_true]
      intro p hp
      rcases mem_mark_first _ p hp with hmem | ⟨v, _, hvi, hpv⟩
      · obtain ⟨c, s, rfl⟩ := basePreds_shape ((mem_sortDesc p _).mp hmem)
        exact mkPrediction_flag_consistent c s
      · subst hpv
        simp [hvi]
    · rw [List.all_eq_true]
      intro p hp
      rcases List.mem_append.mp hp with hmem | hsing
      · have hp' := List.mem_filter.mp hmem
        obtain ⟨c, s, rfl⟩ := basePreds_shape ((mem_sortDesc p _).mp hp'.1)
        exact mkPrediction_flag_consistent c s
      · have hpeq := List.mem_singleton.mp hsing
        subst hpeq
        simp [mkPrediction]

/-- C2 (amended): whenever the raw `validation_empathy` confidence clears its
own 0.30 prediction threshold, the synthesized context satisfies
`predicted_count ≥ primary_count`.  (As stated originally the claim fails:
the forced `validation_empathy` entry raises `primary_count` without raising
`predicted_count` when its raw confidence is below 0.30.) -/
theorem predicted_count_ge_primary_count (q : String)
    (search : List SemanticSearchResult)
    (l0 l1 l2 l3 l4 l5 : String) (s0 s1 s2 s3 s4 s5 : ℚ)
    (h : prediction_threshold Category.validation_empathy ≤ s0) :
    primary_count_of (pipeline_context q search [l0, l1, l2, l3, l4, l5]
        [s0, s1, s2, s3, s4, s5]).confidence_summary ≤
      predicted_count_of (pipeline_context q search [l0, l1, l2, l3, l4, l5]
        [s0, s1, s2, s3, s4, s5]).confidence_summary := by
  have hfind := find?_sortDesc_base s0 s1 s2 s3 s4 s5
  have himp : ∀ x ∈ sortDesc (basePreds s0 s1 s2 s3 s4 s5),
      x.is_primary = true → x.is_predicted = true := by
    intro x hx hpx
    obtain ⟨c, s, rfl⟩ := basePreds_shape ((mem_sortDesc x _).mp hx)
    simp only [mkPrediction, decide_eq_true_eq] at hpx ⊢
    exact le_trans (pred_threshold_le_primary c) hpx
  have hlen : ∀ L : List InterventionPrediction,
      (L.filter (fun p => p.is_primary)).length
        = L.countP (fun p => p.is_primary) :=
    fun L => (List.countP_eq_length_filter _ _).symm
  simp only [pipeline_context, classify_ok_eq, synthesize_therapeutic_context,
    hfind]
  by_cases h06 : primary_threshold ≤ s0
  · have hvp : (mkPrediction Category.validation_empathy s0).is_primary
        = true := by simp [mkPrediction, h06]
    simp only [hvp, if_true, primary_count_of, predicted_count_of]
    rw [hlen]
    exact countP_le_of_imp himp
  · have hvp : (mkPrediction Category.validation_empathy s0).is_primary
        = false := by simp [mkPrediction, h06]
    simp only [hvp, Bool.false_eq_true, if_false, primary_count_of,
      predicted_count_of, List.length_append, List.length_singleton]
    rw [hlen, countP_mark_first_predicted]
    apply countP_succ_le_of_gap
      (x := mkPrediction Category.validation_empathy s0)
    · exact (mem_sortDesc _ _).mpr (by simp [basePreds])
    · exact hvp
    · simp [mkPrediction, h]
    · exact himp

/-- C2 witness: the amended hypothesis is satisfiable, e.g. by the raw vector
(0.5, 0, 0, 0, 0, 0). -/
theorem predicted_count_ge_primary_count_witness :
    prediction_threshold Category.validation_empathy ≤ (1/2 : ℚ)
    ∧ primary_count_of (pipeline_context "q" [] ["", "", "", "", "", ""]
          [1/2, 0, 0, 0, 0, 0]).confidence_summary ≤
        predicted_count_of (pipeline_context "q" [] ["", "", "", "", "", ""]
          [1/2, 0, 0, 0, 0, 0]).confidence_summary :=
  ⟨by norm_num [prediction_threshold],
   predicted_count_ge_primary_count "q" [] "" "" "" "" "" ""
     (1/2) 0 0 0 0 0 (by norm_num [prediction_threshold])⟩

/-- C2 counterexample: with the all-zero raw vector, the forced
`validation_empathy` entry gives `primary_count = 1` while
`predicted_count = 0`, so `predicted_count ≥ primary_count` fails. -/
theorem predicted_count_ge_primary_count_counterexample :
    ¬ (primary_count_of (pipeline_context "q" [] ["", "", "", "", "", ""]
          [0, 0, 0, 0, 0, 0]).confidence_summary ≤
        predicted_count_of (pipeline_context "q" [] ["", "", "", "", "", ""]
          [0, 0, 0, 0, 0, 0]).confidence_summary) := by
  with_unfolding_all decide

/-- C3 counterexample: when the classification oracle fails, the failure is
caught inside `classify_interventions`, so the returned context carries the
ordinary statistics summary (with a NaN mean), not the `{'error': message}`
summary the claim requires. -/
theorem classification_failure_summary_counterexample :
    (get_therapeutic_response "q" (Except.ok [])
        (Except.error "classification failed")).confidence_summary
      = ConfidenceSummary.stats none 0 0 0
    ∧ (get_therapeutic_response "q" (Except.ok [])
        (Except.error "classification failed")).confidence_summary
      ≠ ConfidenceSummary.err "classification failed" :=
  ⟨rfl, by with_unfolding_all decide⟩

/-- C3 (amended): when the classification oracle call fails, the overall
inference does not raise and returns a degraded context with empty score and
primary lists, but its confidence summary is the ordinary statistics dict
with NaN mean (modelled `none`), max 0.0 and zero counts — the
`{'error': message}` summary is produced only when the body of
`get_therapeutic_response` itself raises, which an oracle failure does not
cause. -/
theorem classification_failure_degraded (q msg : String)
    (search_oracle : Except String (List SemanticSearchResult)) :
    (get_therapeutic_response q search_oracle
        (Except.error msg)).intervention_predictions = []
    ∧ (get_therapeutic_response q search_oracle
        (Except.error msg)).primary_interventions = []
    ∧ (get_therapeutic_response q search_oracle
        (Except.error msg)).confidence_summary
      = ConfidenceSummary.stats none 0 0 0 :=
  ⟨rfl, rfl, rfl⟩

/-- C4: for every classification oracle outcome, the `all_scores` sequence
produced by classification is sorted by confidence descending, and categories
of equal confidence appear in the fixed category declaration order. -/
theorem all_scores_sorted_stable
    (oracle : Except String (List String × List ℚ)) :
    (classify_interventions oracle).Pairwise rankedBefore := by
  cases oracle with
  | error e => simp [classify_interventions]
  | ok res =>
    obtain ⟨labels, scores⟩ := res
    simp only [classify_interventions]
    cases hb : buildPredictions intervention_keys (labels.zip scores) with
    | none => simp
    | some preds =>
      apply pairwise_sortDesc
      have hmap := buildPredictions_map_intervention _ _ _ hb
      have hkeys : intervention_keys.Pairwise
          (fun a b => declIdx a < declIdx b) := by decide
      have htake : (intervention_keys.take (labels.zip scores).length).Pairwise
          (fun a b => declIdx a < declIdx b) :=
        hkeys.sublist (List.take_sublist _ _)
      rw [← hmap, List.pairwise_map] at htake
      exact htake

/-- C5: the advice confidence is 0.3 on an empty primary list, otherwise the
rounded-to-3-decimals mean of the primary confidences, boosted by 1.1 and
capped at 0.95 when at least two primaries exist; the same value is produced
on the successful-oracle path and on the fallback path, and the spec's
worked example (0.8 and 0.1 giving 0.495) holds. -/
theorem advice_confidence_spec
    (primary : List InterventionPrediction) (text q : String) :
    calculate_advice_confidence primary =
      (if primary.isEmpty then 0.3
       else round3 (if 2 ≤ primary.length
         then min 0.95
           (((primary.map (fun p => p.confidence)).sum / primary.length)
             * 1.1)
         else (primary.map (fun p => p.confidence)).sum / primary.length))
    ∧ (parse_therapeutic_response text primary).confidence_score
        = calculate_advice_confidence primary
    ∧ (generate_fallback_advice q primary).confidence_score
        = calculate_advice_confidence primary
    ∧ calculate_advice_confidence
        [mkPrediction Category.behavioral_activation 0.8,
         mkPrediction Category.validation_empathy 0.1] = 0.495 :=
  ⟨rfl, rfl, rfl, by with_unfolding_all decide⟩

/-- C6 counterexample: on an empty `all_scores` list the max entry is 0.0 but
the mean entry is `np.mean([])`, i.e. NaN (modelled `none`), not 0.0. -/
theorem empty_scores_summary_counterexample :
    (synthesize_therapeutic_context "q" [] []).confidence_summary
      = ConfidenceSummary.stats none 0 0 0
    ∧ (synthesize_therapeutic_context "q" [] []).confidence_summary
      ≠ ConfidenceSummary.stats (some 0) 0 0 0 :=
  ⟨rfl, by with_unfolding_all decide⟩

/-- C6 (amended): when the `all_scores` list given to confidence-summary
computation is empty, the max entry is 0.0 and both counts are 0, but the
mean entry is NaN (modelled `none`), not 0.0. -/
theorem empty_scores_summary (q : String)
    (search : List SemanticSearchResult) :
    (synthesize_therapeutic_context q search []).confidence_summary
      = ConfidenceSummary.stats none 0 0 0 := rfl

theorem pattern_loop_eq_map (l : List InterventionPrediction) :
    pattern_loop l = l.map (fun p => pattern_sentence p.intervention) := by
  induction l with
  | nil => rfl
  | cons a t ih => simp [pattern_loop, ih]

/-- C7: the response patterns are exactly one example-derived pattern quoting
the top retrieved example's response truncated to 100 characters — present if
and only if the examples list is non-empty — followed by one fixed
category-specific sentence per primary intervention, in the order of the
primary list. -/
theorem response_patterns_spec (r : SemanticSearchResult)
    (rest : List SemanticSearchResult)
    (primary : List InterventionPrediction) :
    generate_response_patterns [] primary
        = primary.map (fun p => pattern_sentence p.intervention)
    ∧ generate_response_patterns (r :: rest) primary
        = ("Similar situations have been addressed with responses like: '"
            ++ r.counselor_response.take 100 ++ "...'")
          :: primary.map (fun p => pattern_sentence p.intervention) := by
  constructor <;> simp [generate_response_patterns, pattern_loop_eq_map]

/-- C8: a failing or empty retrieval yields the empty example sequence
instead of raising, and the overall inference still completes, producing the
context synthesized from the classifier branch alone. -/
theorem retrieval_failure_nonfatal (q msg : String)
    (class_oracle : Except String (List String × List ℚ)) :
    semantic_search (Except.error msg) = []
    ∧ semantic_search (Except.ok []) = []
    ∧ (get_therapeutic_response q (Except.error msg)
        class_oracle).similar_examples = []
    ∧ get_therapeutic_response q (Except.error msg) class_oracle
        = synthesize_therapeutic_context q []
            (classify_interventions class_oracle) :=
  ⟨rfl, rfl, rfl, rfl⟩

/-- C9 counterexample: the advice confidence agrees between the two paths,
but with one primary intervention and the oracle text "Try mindfulness." the
successful-oracle reasoning names the extracted technique "Mindfulness" while
the fallback reasoning names the default technique list, so the reasonings
differ. -/
theorem advice_reasoning_counterexample :
    (parse_therapeutic_response "Try mindfulness."
        [mkPrediction Category.behavioral_activation 0.8]).confidence_score
      = (generate_fallback_advice "q"
        [mkPrediction Category.behavioral_activation 0.8]).confidence_score
    ∧ (parse_therapeutic_response "Try mindfulness."
        [mkPrediction Category.behavioral_activation 0.8]).reasoning
      ≠ (generate_fallback_advice "q"
        [mkPrediction Category.behavioral_activation 0.8]).reasoning :=
  ⟨rfl, by with_unfolding_all decide⟩

/-- C9 (amended): the advice confidence produced on the successful-oracle
path always equals the fallback confidence; the reasonings coincide whenever
the techniques extracted from the oracle text equal the default fallback
technique list (in particular whenever the text contains no technique
keyword), but in general the reasoning depends on the oracle text through the
extracted techniques it names. -/
theorem advice_paths_agree (text q : String)
    (primary : List InterventionPrediction)
    (h : extract_therapeutic_techniques text = fallback_techniques) :
    (parse_therapeutic_response text primary).confidence_score
      = (generate_fallback_advice q primary).confidence_score
    ∧ (parse_therapeutic_response text primary).reasoning
      = (generate_fallback_advice q primary).reasoning := by
  refine ⟨rfl, ?_⟩
  simp only [parse_therapeutic_response, generate_fallback_advice, h]

/-- C9 witness: the amended hypothesis is satisfiable, e.g. by the oracle
text "hello", which contains no technique keyword. -/
theorem advice_paths_agree_witness :
    (parse_therapeutic_response "hello" []).confidence_score
      = (generate_fallback_advice "x" []).confidence_score
    ∧ (parse_therapeutic_response "hello" []).reasoning
      = (generate_fallback_advice "x" []).reasoning :=
  advice_paths_agree "hello" "x" [] (by with_unfolding_all decide)

/-- C10: the classifier adapter assigns the i-th oracle score to the i-th
category in declaration order and ignores the returned label strings: two
oracle results with the same scores but different label orders classify
identically, and every produced prediction carries the score at its
category's declaration position. -/
theorem classifier_positional_assignment
    (l0 l1 l2 l3 l4 l5 m0 m1 m2 m3 m4 m5 : String)
    (s0 s1 s2 s3 s4 s5 : ℚ) :
    classify_interventions
        (Except.ok ([l0, l1, l2, l3, l4, l5], [s0, s1, s2, s3, s4, s5]))
      = classify_interventions
        (Except.ok ([m0, m1, m2, m3, m4, m5], [s0, s1, s2, s3, s4, s5]))
    ∧ (classify_interventions
        (Except.ok ([l0, l1, l2, l3, l4, l5], [s0, s1, s2, s3, s4, s5]))).all
        (fun p => decide (p.confidence
          = declaration_score s0 s1 s2 s3 s4 s5 p.intervention)) = true := by
  constructor
  · rfl
  · rw [classify_ok_eq, List.all_eq_true]
    intro p hp
    have hp' := (mem_sortDesc p _).mp hp
    simp only [basePreds, List.mem_cons, List.not_mem_nil, or_false] at hp'
    rcases hp' with rfl | rfl | rfl | rfl | rfl | rfl <;>
      simp [mkPrediction, declaration_score]

end Cura
